import Mathlib

/-!
Verification of the ingestion-and-normalization engine of the rental_signals
repository (the three scripts under `ingest/`: `zillow_zori_pull.py`,
`apartmentlist_pull.py`, `fred_tampa_rent_pull.py`).

The Python scripts are shallowly embedded: pandas data frames become lists of
association-list rows over string cells, the per-run side effects (network
fetches, bronze/silver file writes, standard-output lines) become an explicit
effect trace, and exceptions become an explicit outcome value.  All string
manipulation is done on `List Char` so that every definition evaluates inside
the kernel.
-/

namespace RentSignals

/-! ## Character and string utilities -/

/-- Lower-case a string (models Python `str.lower()` for the ASCII data the
scripts handle). -/
def lowerStr (s : String) : String := String.mk (s.data.map Char.toLower)

/-- Drop the given characters from the front and back of a char list
(models Python `str.strip(chars)`). -/
def stripCharsList (p : Char → Bool) (l : List Char) : List Char :=
  ((l.dropWhile p).reverse.dropWhile p).reverse

/-- Python `str.strip()` (whitespace from both ends). -/
def pyStrip (s : String) : String := String.mk (stripCharsList Char.isWhitespace s.data)

/-- Python `str.strip(c)` for a single strip character. -/
def pyStripChar (c : Char) (s : String) : String :=
  String.mk (stripCharsList (fun d => d == c) s.data)

/-- `needle` occurs at the head of `hay`. -/
def prefixAt : List Char → List Char → Bool
  | [], _ => true
  | _ :: _, [] => false
  | a :: as, b :: bs => a == b && prefixAt as bs

/-- `needle` occurs somewhere inside `hay` (models Python `needle in hay`). -/
def containsSub (needle : List Char) : List Char → Bool
  | [] => needle.isEmpty
  | b :: bs => prefixAt needle (b :: bs) || containsSub needle bs

/-- Python substring test `sub in s` on strings. -/
def strContains (s sub : String) : Bool := containsSub sub.data s.data

/-- Python `s.startswith(p)`. -/
def strStartsWith (s p : String) : Bool := prefixAt p.data s.data

/-- Replace every occurrence of a character (models `str.replace` with
one-character arguments, as used for `"2017_01" -> "2017-01"`). -/
def replaceChar (from_ to_ : Char) (s : String) : String :=
  String.mk (s.data.map (fun c => if c == from_ then to_ else c))

/-- Numeric value of a digit list, most significant first. -/
def digitsVal (cs : List Char) : Nat :=
  cs.foldl (fun a c => a * 10 + (c.toNat - 48)) 0

/-- Parse a non-empty all-digit char list. -/
def parseDigits? (cs : List Char) : Option Nat :=
  if cs.isEmpty then none
  else if cs.all Char.isDigit then some (digitsVal cs) else none

/-- The character for a decimal digit. -/
def digitChar (d : Nat) : Char := Char.ofNat (48 + d)

/-- Decimal digit characters of a natural number (fuel-based so that it
reduces inside the kernel). -/
def natCharsGo : Nat → Nat → List Char → List Char
  | 0, _, acc => acc
  | fuel + 1, n, acc =>
    if n < 10 then digitChar n :: acc
    else natCharsGo fuel (n / 10) (digitChar (n % 10) :: acc)

def natChars (n : Nat) : List Char := natCharsGo (n + 1) n []

/-- Render a natural number, as Python `str(n)` / an f-string does. -/
def natStr (n : Nat) : String := String.mk (natChars n)

/-- Render an integer. -/
def intStr (i : Int) : String :=
  if i < 0 then "-" ++ natStr i.natAbs else natStr i.natAbs

/-! ## Numeric cells

pandas float/int values obtained from `pd.to_numeric(..., errors="coerce")`
are modelled exactly as scaled integers: `mant / 10 ^ scale`.  The scripts
never do arithmetic on the values, so this representation is lossless for
every cell the transformers accept. -/

structure Decimal where
  mant : Int
  scale : Nat
deriving DecidableEq, Repr

def Decimal.ofNat (n : Nat) : Decimal := ⟨n, 0⟩

/-- Model of `pd.to_numeric(cell, errors="coerce")` on a raw text cell:
an optional sign, digits, and at most one decimal point parse to a number;
anything else (for example `"N/A"`, `""`, `"."`) coerces to missing (`none`),
never to zero and never to an error. -/
def toNumeric (s : String) : Option Decimal :=
  let t := (pyStrip s).data
  let sgn : Int := match t with
    | '-' :: _ => -1
    | _ => 1
  let body := match t with
    | '-' :: rest => rest
    | '+' :: rest => rest
    | _ => t
  let intPart := body.takeWhile (fun c => c != '.')
  match body.drop intPart.length with
  | [] =>
    match parseDigits? intPart with
    | some n => some ⟨sgn * n, 0⟩
    | none => none
  | '.' :: frac =>
    if intPart.isEmpty && frac.isEmpty then none
    else if intPart.all Char.isDigit && (frac.all Char.isDigit) then
      some ⟨sgn * ((digitsVal intPart) * 10 ^ frac.length + digitsVal frac), frac.length⟩
    else none
  | _ => none

/-- Render a coerced value roughly the way pandas prints it (used only in
diagnostic standard-output lines, whose exact float formatting the model
approximates; no claim depends on it). -/
def renderValue : Option Decimal → String
  | none => "nan"
  | some d =>
    let digits := natChars d.mant.natAbs
    let digits := List.replicate (d.scale + 1 - digits.length) '0' ++ digits
    let whole := digits.take (digits.length - d.scale)
    let frac := digits.drop (digits.length - d.scale)
    let frac := if frac.isEmpty then ['0'] else frac
    (if d.mant < 0 then "-" else "") ++ String.mk whole ++ "." ++ String.mk frac

/-! ## Year-month handling -/

/-- Parse a token that fully matches `YYYY-MM` or `YYYY-MM-DD`
(the regular expression `\d{4}-\d{2}(-\d{2})?$` anchored by `re.match`,
used by `latest_month_from_df`); the day defaults to 1, as date parsing of a
bare month yields a day inside that month. -/
def parseYMD? (s : String) : Option (Nat × Nat × Nat) :=
  match s.data with
  | [a, b, c, d, '-', e, f] =>
    if [a, b, c, d, e, f].all Char.isDigit then
      some (digitsVal [a, b, c, d], digitsVal [e, f], 1)
    else none
  | [a, b, c, d, '-', e, f, '-', g, h] =>
    if [a, b, c, d, e, f, g, h].all Char.isDigit then
      some (digitsVal [a, b, c, d], digitsVal [e, f], digitsVal [g, h])
    else none
  | _ => none

/-- Chronological key of a parsed date. -/
def ymdKey (d : Nat × Nat × Nat) : Nat := d.1 * 10000 + d.2.1 * 100 + d.2.2

/-- Zero-padded two-digit rendering (`%m`). -/
def pad2 (m : Nat) : List Char := [digitChar (m / 10 % 10), digitChar (m % 10)]

/-- Zero-padded four-digit rendering (`%Y` for the four-digit years the
scripts parse). -/
def pad4 (y : Nat) : List Char :=
  [digitChar (y / 1000 % 10), digitChar (y / 100 % 10), digitChar (y / 10 % 10),
    digitChar (y % 10)]

/-- `strftime("%Y-%m")`. -/
def fmtYM (y m : Nat) : String := String.mk (pad4 y ++ '-' :: pad2 m)

/-- A string of the exact shape `YYYY-MM`. -/
def isYYYYMM (s : String) : Bool :=
  match s.data with
  | [a, b, c, d, '-', e, f] => [a, b, c, d, e, f].all Char.isDigit
  | _ => false

/-! ## Data frames

A pandas data frame is modelled as a column list plus rows of
(column-name, raw-cell) pairs; a missing entry models NaN.  `read_csv` turns
empty cells into NaN, and every operation the scripts apply treats NaN and
the empty string identically, so cells are plain strings with absence
modelled by lookup failure. -/

abbrev Row := List (String × String)

def getCell (r : Row) (c : String) : Option String :=
  (r.find? (fun p => p.1 == c)).map (·.2)

structure Frame where
  cols : List String
  rows : List Row
deriving Repr

def applyRename (mapping : List (String × String)) (c : String) : String :=
  match mapping.find? (fun p => p.1 == c) with
  | some p => p.2
  | none => c

/-- `df.rename(columns=mapping)`. -/
def renameFrame (mapping : List (String × String)) (f : Frame) : Frame :=
  { cols := f.cols.map (applyRename mapping),
    rows := f.rows.map (fun r => r.map (fun p => (applyRename mapping p.1, p.2))) }

/-- Rename the column headers only, via an arbitrary function
(`df.columns = [g(c) for c in df.columns]`). -/
def mapHeaders (g : String → String) (f : Frame) : Frame :=
  { cols := f.cols.map g,
    rows := f.rows.map (fun r => r.map (fun p => (g p.1, p.2))) }

/-- `pd.melt(df, id_vars, value_vars, var_name, value_name)`: one output row
per (input row × value column), stacked column-major exactly as pandas does. -/
def meltRows (rows : List Row) (idVars valueVars : List String)
    (varName valueName : String) : List Row :=
  valueVars.flatMap (fun v =>
    rows.map (fun r =>
      idVars.map (fun c => (c, (getCell r c).getD "")) ++
        [(varName, v), (valueName, (getCell r v).getD "")]))

/-- Python `repr` of a list of strings, as printed by f-strings. -/
def pyListRepr (l : List String) : String :=
  "[" ++ String.intercalate ", " (l.map (fun s => "\x27" ++ s ++ "\x27")) ++ "]"

/-- numpy array repr of a list of strings (space separated), as printed for
`Series.unique()` values. -/
def npArrayRepr (l : List String) : String :=
  "[" ++ String.intercalate " " (l.map (fun s => "\x27" ++ s ++ "\x27")) ++ "]"

end RentSignals

namespace RentSignals

/-! ## Outcomes and effect traces

Each script's `main` is modelled as a function from an environment (the
externally supplied page content, CSV contents, existing silver partitions,
CLI flags and clock) to the ordered trace of its side effects plus an
outcome.  `Outcome.error` models an uncaught exception (non-zero process
exit); `Outcome.ok` models the process reaching the end of `main` or an
early `return` (exit status 0). -/

inductive Res (α : Type) where
  | ok (a : α)
  | err (msg : String)
deriving DecidableEq, Repr

def Res.isOk {α} : Res α → Bool
  | .ok _ => true
  | .err _ => false

inductive Effect where
  | fetchPage (url : String)
  | fetchCsv (url : String)
  | writeBronze (path : String)
  | writeSilver (month path : String) (rows : Nat)
  | stdout (line : String)
deriving DecidableEq, Repr

inductive Outcome where
  | ok
  | error (msg : String)
deriving DecidableEq, Repr

def Effect.isWrite : Effect → Bool
  | .writeBronze _ => true
  | .writeSilver _ _ _ => true
  | _ => false

def Effect.isFetch : Effect → Bool
  | .fetchPage _ => true
  | .fetchCsv _ => true
  | _ => false

def Effect.isSilverWrite : Effect → Bool
  | .writeSilver _ _ _ => true
  | _ => false

def writesOf (es : List Effect) : List Effect := es.filter Effect.isWrite

def fetchesOf (es : List Effect) : List Effect := es.filter Effect.isFetch

def stdoutOf (es : List Effect) : List String :=
  es.filterMap (fun e => match e with | .stdout l => some l | _ => none)

def silverWritesOf (es : List Effect) : List Effect := es.filter Effect.isSilverWrite

def silverMonthsOf (es : List Effect) : List String :=
  es.filterMap (fun e => match e with | .writeSilver m _ _ => some m | _ => none)

/-- The summary line `f"{SOURCE_NAME}: latest={month} rows={len(df)} saved={path}"`
emitted after every successful silver write. -/
def mkSummary (src month : String) (rows : Nat) (path : String) : String :=
  src ++ ": latest=" ++ month ++ " rows=" ++ natStr rows ++ " saved=" ++ path

/-- The idempotency gate `(not force) and (target_month in existing_months)`,
written identically in all three scripts. -/
def shouldSkip (existing : List String) (period : String) (force : Bool) : Bool :=
  !force && existing.contains period

/-- Lexicographic comparison by code point, the order Python `sorted` uses on
strings. -/
def lexLe : List Char → List Char → Bool
  | [], _ => true
  | _ :: _, [] => false
  | c :: cs, d :: ds => if c == d then lexLe cs ds else decide (c.toNat < d.toNat)

/-! ## apartmentlist_pull.py -/

def aptPAGE_URL : String := "https://www.apartmentlist.com/research/category/data-rent-estimates"

/-- Canonical tidy row of the ApartmentList transformer.  `region_id` and
`bed_size` are `none` when the corresponding column is absent from the input
(the output column list keeps only columns that exist). -/
structure AptTidyRow where
  source : String
  region_type : String
  region_name : String
  region_id : Option String
  bed_size : Option String
  period : String
  value : Option Decimal
  pulled_at : String
deriving DecidableEq, Repr

def aptColumnMapping : List (String × String) :=
  [("location_name", "region_name"), ("location_type", "region_type"),
   ("location_fips_code", "region_id")]

/-- `re.match(r'\d{4}_\d{2}', c)`: the header starts with four digits, an
underscore and two digits. -/
def isAptDateCol (c : String) : Bool :=
  match c.data with
  | a :: b :: cc :: d :: '_' :: e :: f :: _ => [a, b, cc, d, e, f].all Char.isDigit
  | _ => false

/-- First-occurrence-ordered distinct values of a column
(`Series.unique()`; missing cells are skipped). -/
def uniqueVals (rows : List Row) (c : String) : List String :=
  (rows.filterMap (fun r => getCell r c)).eraseDups

/-- The row mask `df["region_type"].str.lower() == location_type.lower()`:
region-type equality, case-insensitive; a missing cell (NaN) compares
false. -/
def aptTypeMatches (location_type : String) (r : Row) : Bool :=
  match getCell r "region_type" with
  | some t => lowerStr t == lowerStr location_type
  | none => false

/-- The row mask `df["region_name"].str.contains(location_name, case=False,
na=False)`: the row's region name contains (hence possibly equals) the
configured variant, case-insensitively; a missing cell compares false. -/
def aptNameMatches (location_name : String) (r : Row) : Bool :=
  match getCell r "region_name" with
  | some n => strContains (lowerStr n) (lowerStr location_name)
  | none => false

/-- The header normalization and renaming of apartmentlist_pull.py lines
133-142. -/
def aptNormalize (df0 : Frame) : Frame :=
  renameFrame aptColumnMapping
    (mapHeaders (fun c => lowerStr (pyStripChar '"' (pyStrip c))) df0)

/-- Embedding of `tidy_apartmentlist` (apartmentlist_pull.py lines 121-198).
Returns the lines it prints and either the tidy rows or the uncaught
`RuntimeError` message. -/
def tidy_apartmentlist (df0 : Frame) (location_type location_name pulledAt : String) :
    List String × Res (List AptTidyRow) :=
  let df := aptNormalize df0
  if !(df.cols.contains "region_type") || !(df.cols.contains "region_name") then
    ([], .err ("Missing region columns. Found: " ++ pyListRepr (df.cols.take 10)))
  else
    let prints := if (df.rows.filter (aptTypeMatches location_type)).length == 0 then
        ["  No rows match region_type=\x27" ++ location_type ++ "\x27",
         "  Available types: " ++ npArrayRepr ((uniqueVals df.rows "region_type").take 10)]
      else []
    let filtered := df.rows.filter
      (fun r => aptTypeMatches location_type r && aptNameMatches location_name r)
    if filtered.length == 0 then (prints, .ok [])
    else
      let dateCols := df.cols.filter isAptDateCol
      if dateCols.isEmpty then
        (prints, .err "No date columns found (expected format: YYYY_MM)")
      else
        let idCols := ["region_name", "region_type", "region_id", "bed_size"].filter
          (fun c => df.cols.contains c)
        let longRows := dateCols.flatMap (fun dc =>
          filtered.map (fun r =>
            ({ source := "apartmentlist"
               region_type := (getCell r "region_type").getD ""
               region_name := (getCell r "region_name").getD ""
               region_id :=
                 if idCols.contains "region_id" then some ((getCell r "region_id").getD "")
                 else none
               bed_size :=
                 if idCols.contains "bed_size" then some ((getCell r "bed_size").getD "")
                 else none
               period := replaceChar '_' '-' dc
               value := toNumeric ((getCell r dc).getD "")
               pulled_at := pulledAt } : AptTidyRow)))
        (prints, .ok (longRows.filter (fun r => r.value.isSome)))

/-- `combined.drop_duplicates(subset=[...])` with the default `keep="first"`:
keep the first row for each key, preserving order. -/
def dropDupGo {α β : Type} (key : α → β) [DecidableEq β] (seen : List β) :
    List α → List α
  | [] => []
  | r :: rs =>
    if key r ∈ seen then dropDupGo key seen rs
    else r :: dropDupGo key (key r :: seen) rs

def drop_duplicates {α β : Type} (key : α → β) [DecidableEq β] (l : List α) : List α :=
  dropDupGo key [] l

/-- The deduplication key `["period", "region_name"]` used by
apartmentlist_pull.py line 308. -/
def aptKey (r : AptTidyRow) : String × String := (r.period, r.region_name)

/-- The region-name variants tried in order (apartmentlist_pull.py lines
277-282). -/
def tampa_names : List String :=
  ["Tampa-St. Petersburg-Clearwater, FL", "Tampa, FL",
   "Tampa - St. Petersburg - Clearwater, FL", "Tampa"]

/-- The variant loop of apartmentlist_pull.py lines 284-293: try each name in
order, keep the first transformation that yields at least one row and stop;
an exception from the transformer is caught and the next variant is tried.
Returns the printed lines and the collected `tidy_frames` list (at most one
frame). -/
def apt_try_variants (df : Frame) (names : List String) (pulledAt : String) :
    List String × List (List AptTidyRow) :=
  match names with
  | [] => ([], [])
  | n :: rest =>
    match tidy_apartmentlist df "Metro" n pulledAt with
    | (prints, .err e) =>
      let (ps, fs) := apt_try_variants df rest pulledAt
      (prints ++ ["✗ No data for \x27" ++ n ++ "\x27: " ++ e] ++ ps, fs)
    | (prints, .ok rows) =>
      if rows.length > 0 then
        (prints ++ ["✓ Found " ++ natStr rows.length ++ " rows for " ++ n], [rows])
      else
        let (ps, fs) := apt_try_variants df rest pulledAt
        (prints ++ ps, fs)

end RentSignals

namespace RentSignals

/-! ## Retrying fetcher configuration

All three scripts build their `requests.Session` through an identical
`create_session`, passing a `urllib3` `Retry` configuration.  The
configuration record below is the embedding of those keyword arguments;
`retryOnStatus` and `get_backoff_time` model the documented behaviour of the
third-party `urllib3.util.retry.Retry` engine those arguments configure
(retry a permitted method when the response status is in `status_forcelist`;
sleep `0` before the first retry and `backoff_factor * 2 ^ (n - 1)` before
the `n`-th, capped at 120 seconds). -/

structure RetryConfig where
  total : Nat
  backoff_factor : Nat
  status_forcelist : List Nat
  allowed_methods : List String
deriving DecidableEq, Repr

/-- The `Retry(...)` arguments of `create_session` (identical in
zillow_zori_pull.py lines 45-57, apartmentlist_pull.py lines 38-51 and
fred_tampa_rent_pull.py lines 42-53). -/
def create_session_retries : RetryConfig :=
  { total := 5
    backoff_factor := 1
    status_forcelist := [500, 502, 503, 504]
    allowed_methods := ["GET"] }

/-- Whether a response with the given status to a request with the given
method is retried: the method must be allowed and, with a configured
`status_forcelist`, the status must be in the list. -/
def retryOnStatus (cfg : RetryConfig) (method : String) (status : Nat) : Bool :=
  cfg.allowed_methods.contains method && cfg.status_forcelist.contains status

/-- Seconds slept before the `n`-th consecutive retry. -/
def get_backoff_time (cfg : RetryConfig) (n : Nat) : Nat :=
  if n ≤ 1 then 0 else min 120 (cfg.backoff_factor * 2 ^ (n - 1))

/-! ## zillow_zori_pull.py -/

def zoriBASE_URL : String := "https://www.zillow.com/research/data/"

/-- Tidy row of the ZORI transformer.  The final column list is fixed; a
region column missing from the input is filled with `None`. -/
structure ZoriTidyRow where
  source : String
  region_type : Option String
  region_name : Option String
  region_id : Option String
  period : String
  value : Option Decimal
  pulled_at : String
deriving DecidableEq, Repr

/-- Embedding of `discover_zori_csv_links` (zillow_zori_pull.py lines
60-97) on the parsed anchor list (href, text) of the research page. -/
def discover_zori_csv_links (anchors : List (String × String)) :
    List (String × String) :=
  anchors.filterMap (fun a =>
    let href := a.1
    let hrefLower := lowerStr href
    if strContains hrefLower "zori" && strContains hrefLower ".csv" then
      let csvUrl := if strStartsWith href "http" then href
        else "https://www.zillow.com" ++ href
      let anchorText := pyStrip a.2
      if strContains hrefLower "metro" || strContains hrefLower "city" ||
          strContains hrefLower "zip" then
        let typeLabel :=
          if strContains hrefLower "metro" then "Metro"
          else if strContains hrefLower "city" then "City"
          else if strContains hrefLower "zip" then "ZIP"
          else "Metro"
        let anchorText :=
          if anchorText.isEmpty || lowerStr anchorText == "download" then
            typeLabel ++ " ZORI"
          else anchorText
        some (anchorText, csvUrl)
      else none
    else none)

/-- Embedding of `latest_month_from_df` (zillow_zori_pull.py lines 110-124):
max of the parseable date columns, or the `ValueError`. -/
def latest_month_from_df (f : Frame) : Res String :=
  match f.cols.filterMap parseYMD? with
  | [] => .err "Could not find date columns in ZORI CSV."
  | d :: ds =>
    let best := ds.foldl (fun a b => if ymdKey b > ymdKey a then b else a) d
    .ok (fmtYM best.1 best.2.1)

def zoriColumnMapping : List (String × String) :=
  [("RegionID", "region_id"), ("SizeRank", "size_rank"),
   ("RegionName", "region_name"), ("RegionType", "region_type"),
   ("StateName", "state")]

def zoriMetaCols : List String :=
  ["region_type", "region_name", "region_id", "state", "size_rank"]

/-- Embedding of `tidy_zori` (zillow_zori_pull.py lines 127-209).  Period
standardization parses each non-meta column with the date parser; a column it
cannot parse raises, which propagates to the caller (unless no rows survived
the filters, in which case the empty column is never applied).  Values are
coerced with `errors="coerce"` and, unlike the ApartmentList transformer,
rows with a null value are NOT dropped. -/
def tidy_zori (df0 : Frame) (region_type_filter region_name_filter : List String)
    (region_id_prefixes : Option (List String)) (pulledAt : String) :
    Res (List ZoriTidyRow) :=
  let df := renameFrame zoriColumnMapping (mapHeaders pyStrip df0)
  let metaPresent := zoriMetaCols.filter (fun c => df.cols.contains c)
  let dateCols := df.cols.filter (fun c => !(metaPresent.contains c))
  if !region_type_filter.isEmpty && !(df.cols.contains "region_type") then
    .err "KeyError: region_type"
  else
    let rows1 :=
      if region_type_filter.isEmpty then df.rows
      else df.rows.filter (fun r =>
        match getCell r "region_type" with
        | some t => region_type_filter.contains (lowerStr t)
        | none => false)
    if !region_name_filter.isEmpty && !(df.cols.contains "region_name") then
      .err "KeyError: region_name"
    else
      let rows2 :=
        if region_name_filter.isEmpty then rows1
        else rows1.filter (fun r =>
          match getCell r "region_name" with
          | some n => (region_name_filter.map lowerStr).contains (lowerStr n)
          | none => false)
      let rows3 := match region_id_prefixes with
        | some ps =>
          if !ps.isEmpty && df.cols.contains "region_id" then
            rows2.filter (fun r =>
              match getCell r "region_id" with
              | some v => ps.any (fun p => strStartsWith v p)
              | none => false)
          else rows2
        | none => rows2
      if !rows3.isEmpty && !(dateCols.all (fun c => (parseYMD? c).isSome)) then
        .err "ParserError: unparseable period column"
      else
        .ok (dateCols.flatMap (fun dc =>
          rows3.map (fun r =>
            ({ source := "zillow_zori"
               region_type :=
                 if metaPresent.contains "region_type" then
                   some ((getCell r "region_type").getD "")
                 else none
               region_name :=
                 if metaPresent.contains "region_name" then
                   some ((getCell r "region_name").getD "")
                 else none
               region_id :=
                 if metaPresent.contains "region_id" then
                   some ((getCell r "region_id").getD "")
                 else none
               period := match parseYMD? dc with
                 | some d => fmtYM d.1 d.2.1
                 | none => ""
               value := toNumeric ((getCell r dc).getD "")
               pulled_at := pulledAt } : ZoriTidyRow))))

def isWordChar (c : Char) : Bool := c.isAlphanum || c == '_'

/-- Collapse each maximal marked run to a single underscore. -/
def collapseRuns : List (Option Char) → List Char
  | [] => []
  | [x] => [x.getD '_']
  | x :: y :: rest =>
    match x with
    | some c => c :: collapseRuns (y :: rest)
    | none => match y with
      | none => collapseRuns (y :: rest)
      | some _ => '_' :: collapseRuns (y :: rest)

/-- `re.sub(r"\W+", "_", anchor_text.lower()).strip("_")` (zillow_zori_pull.py
line 269). -/
def slugOf (anchorText : String) : String :=
  pyStripChar '_'
    (String.mk (collapseRuns ((lowerStr anchorText).data.map
      (fun c => if isWordChar c then some c else none))))

structure ZoriEnv where
  anchors : List (String × String)
  csvOf : String → Frame
  existing : List String
  monthArg : Option String
  force : Bool
  now : String

/-- The per-anchor geographic filter choice (zillow_zori_pull.py lines
274-285). -/
def zoriFilters (anchorText : String) :
    List String × List String × Option (List String) :=
  if strContains (lowerStr anchorText) "zip" then (["zip"], [], some ["336"])
  else if strContains (lowerStr anchorText) "metro" then (["msa"], ["Tampa, FL"], none)
  else (["city"], ["Tampa, FL"], none)

/-- The target month a link resolves to: the CLI override if given, else the
latest month inferred from the file; `none` when the month inference raises
(the per-link `except` catches it and moves on). -/
def zoriTarget (env : ZoriEnv) (url : String) : Option String :=
  match latest_month_from_df (env.csvOf url) with
  | .err _ => none
  | .ok latest => some (match env.monthArg with | some m => m | none => latest)

def zoriBronzePath (t : String) (anchorText : String) : String :=
  "data/bronze/zillow_zori/date=" ++ t ++ "/" ++ slugOf anchorText ++ ".csv"

/-- One iteration of the per-link loop (zillow_zori_pull.py lines 245-296):
download the CSV, infer the month, skip if already ingested, else land
bronze and transform; an exception is printed to stderr and the loop
continues. -/
def zoriProcessLink (env : ZoriEnv) (link : String × String) :
    List Effect × Option (String × List ZoriTidyRow) :=
  match zoriTarget env link.2 with
  | none => ([.fetchCsv link.2], none)
  | some t =>
    if shouldSkip env.existing t env.force then ([.fetchCsv link.2], none)
    else
      let bp := zoriBronzePath t link.1
      let (tf, nf, ip) := zoriFilters link.1
      match tidy_zori (env.csvOf link.2) tf nf ip env.now with
      | .err _ => ([.fetchCsv link.2, .writeBronze bp], none)
      | .ok rows => ([.fetchCsv link.2, .writeBronze bp], some (t, rows))

def zoriProcessLinks (env : ZoriEnv) :
    List (String × String) → List Effect × List (String × List ZoriTidyRow)
  | [] => ([], [])
  | l :: ls =>
    let (e, r) := zoriProcessLink env l
    let (es, rs) := zoriProcessLinks env ls
    (e ++ es, r.toList ++ rs)

def zoriSilverPath (m : String) : String :=
  "data/silver/zillow_zori/date=" ++ m ++ "/zori_tampa.parquet"

/-- The silver-landing loop (zillow_zori_pull.py lines 300-307): one parquet
write and one summary line per collected tidy frame. -/
def zoriEmit : List (String × List ZoriTidyRow) → List Effect
  | [] => []
  | (m, rows) :: rest =>
    .writeSilver m (zoriSilverPath m) rows.length ::
      .stdout (mkSummary "zillow_zori" m rows.length (zoriSilverPath m)) ::
        zoriEmit rest

/-- Embedding of `main` of zillow_zori_pull.py (lines 232-307). -/
def zoriMain (env : ZoriEnv) : List Effect × Outcome :=
  let links := discover_zori_csv_links env.anchors
  if links.isEmpty then
    ([.fetchPage zoriBASE_URL], .error "No ZORI CSV links found on Zillow research page.")
  else
    let (le, frames) := zoriProcessLinks env links
    if frames.isEmpty then
      (.fetchPage zoriBASE_URL :: le ++ [.stdout "No new ZORI data to ingest."], .ok)
    else
      (.fetchPage zoriBASE_URL :: le ++ zoriEmit frames, .ok)

/-! ## fred_tampa_rent_pull.py -/

def fredAPI_BASE : String := "https://api.stlouisfed.org/fred/series/observations"

def fredSERIES_ID : String := "CUUR0000SEHA"

structure FredObs where
  date : String
  value : String
deriving DecidableEq, Repr

structure FredEnv where
  apiKey : Option String
  observations : List FredObs
  existing : List String
  force : Bool
  today : Nat × Nat × Nat
  now : String

structure FredTidyRow where
  source : String
  region_type : String
  region_name : String
  region_id : String
  series_title : String
  period : String
  value : Option Decimal
  pulled_at : String
deriving DecidableEq, Repr

def fmtYMD (d : Nat × Nat × Nat) : String :=
  String.mk (pad4 d.1 ++ '-' :: pad2 d.2.1 ++ '-' :: pad2 d.2.2)

/-- Chronological key of an observation (used by `sort_values("date")`). -/
def obsKey (o : FredObs) : Nat := ymdKey ((parseYMD? o.date).getD (0, 0, 0))

/-- `obs_df.sort_values("date")`. -/
def fredSorted (obs : List FredObs) : List FredObs :=
  List.insertionSort (fun a b => obsKey a ≤ obsKey b) obs

/-- The partition key: the month of the last observation after sorting. -/
def fredLatestPeriod (obs : List FredObs) : String :=
  match parseYMD? ((fredSorted obs).getLastD ⟨"", ""⟩).date with
  | some d => fmtYM d.1 d.2.1
  | none => ""

/-- The tidy frame built at fred_tampa_rent_pull.py lines 139-150: one row
per observation of the whole fetched window. -/
def fredTidy (obs : List FredObs) (pulledAt : String) : List FredTidyRow :=
  (fredSorted obs).map (fun o =>
    { source := "fred"
      region_type := "national"
      region_name := "U.S. City Average"
      region_id := fredSERIES_ID
      series_title := "CPI-U Rent of Primary Residence (NSA, 1982-84=100)"
      period := match parseYMD? o.date with
        | some d => fmtYM d.1 d.2.1
        | none => ""
      value := toNumeric o.value
      pulled_at := pulledAt })

def fredBronzePath (p : String) : String :=
  "data/bronze/fred/date=" ++ p ++ "/" ++ fredSERIES_ID ++ ".json"

def fredSilverPath (p : String) : String :=
  "data/silver/fred/date=" ++ p ++ "/fred_tampa_rent.parquet"

/-- Embedding of `main` of fred_tampa_rent_pull.py (lines 90-156).  Note the
missing-credential branch `if not api_key` (which treats an unset and an
empty variable alike) prints guidance and RETURNS, i.e. the process ends
with exit status 0. -/
def fredMain (env : FredEnv) : List Effect × Outcome :=
  if (match env.apiKey with | none => true | some k => k.isEmpty) then
    ([.stdout "ERROR: FRED_API_KEY environment variable is required.",
      .stdout "", .stdout "To get a free API key:",
      .stdout "1. Visit: https://fred.stlouisfed.org/docs/api/api_key.html",
      .stdout "2. Sign up for a free account",
      .stdout "3. Request an API key (instant approval)",
      .stdout "4. Set environment variable: export FRED_API_KEY=your_key_here",
      .stdout "", .stdout "Then run this script again."], .ok)
  else
    let key := env.apiKey.getD ""
    let fetchUrl := fredAPI_BASE ++ "?series_id=" ++ fredSERIES_ID ++
      "&file_type=json&api_key=" ++ key ++ "&observation_start=" ++
      fmtYMD (env.today.1 - 5, env.today.2.1, env.today.2.2)
    let pre := [Effect.stdout ("Fetching FRED data for series: " ++ fredSERIES_ID),
      Effect.fetchPage fetchUrl]
    if env.observations.isEmpty then
      (pre ++ [.stdout "No observations returned from FRED API."], .ok)
    else
      let pre := pre ++
        [Effect.stdout ("Received " ++ natStr env.observations.length ++
          " observations from FRED")]
      if !(env.observations.all (fun o => (parseYMD? o.date).isSome)) then
        (pre, .error "pandas: unparseable observation date")
      else
        let p := fredLatestPeriod env.observations
        let latest := (fredSorted env.observations).getLastD ⟨"", ""⟩
        let pre := pre ++ [Effect.stdout ("Latest observation date: " ++ p ++
          ", value: " ++ renderValue (toNumeric latest.value))]
        if shouldSkip env.existing p env.force then
          (pre ++ [.stdout ("fred: " ++ p ++ " already ingested. Skipping.")], .ok)
        else
          let rows := fredTidy env.observations env.now
          (pre ++ [.writeBronze (fredBronzePath p),
            .stdout ("Saved bronze JSON: " ++ fredBronzePath p),
            .writeSilver p (fredSilverPath p) rows.length,
            .stdout (mkSummary "fred" p rows.length (fredSilverPath p))], .ok)

end RentSignals

namespace RentSignals

/-! ## apartmentlist_pull.py: discovery and main -/

/-- `url.split("/")[-1]`. -/
def lastComponent (s : String) : String :=
  String.mk ((s.data.reverse.takeWhile (fun c => c != '/')).reverse)

/-- Embedding of `discover_csv_urls` (apartmentlist_pull.py lines 54-101) on
the list of regex matches of the Contentful CSV-URL pattern found in the raw
page HTML.  Returns the printed lines and the (label, absolute-url) pairs. -/
def discover_csv_urls (ms : List String) : List String × List (String × String) :=
  let uniq := List.insertionSort (fun a b => lexLe a.data b.data) ms.eraseDups
  let found := "Found " ++ natStr uniq.length ++ " unique CSV URL(s) in HTML"
  let step := fun (url : String) =>
    let absUrl := if strStartsWith url "//" then "https:" ++ url else url
    let filename := lastComponent url
    if strContains filename "Apartment_List_Rent_Estimates_" then
      if !(strContains filename "Summary") && !(strContains filename "Growth") then
        (["  ✓ Selected: " ++ filename],
         [("Historic Rent Estimates (" ++ filename ++ ")", absUrl)])
      else (["  ✗ Skipped: " ++ filename ++ " (not historic data)"], [])
    else (["  ✗ Skipped: " ++ filename ++ " (not rent estimates)"], [])
  let stepped := uniq.map step
  (found :: stepped.flatMap Prod.fst, stepped.flatMap Prod.snd)

/-- Leftmost match of `re.search(r'(\d{4})[_-](\d{2})\.csv', url)`, rendered
as `f"{group(1)}-{group(2)}"`. -/
def matchMonthAt : List Char → Option String
  | a :: b :: c :: d :: sep :: e :: f :: '.' :: 'c' :: 's' :: 'v' :: _ =>
    if [a, b, c, d, e, f].all Char.isDigit && (sep == '_' || sep == '-') then
      some (String.mk [a, b, c, d] ++ "-" ++ String.mk [e, f])
    else none
  | _ => none

def searchMonthCsv : List Char → Option String
  | [] => none
  | c :: cs =>
    match matchMonthAt (c :: cs) with
    | some r => some r
    | none => searchMonthCsv cs

structure AptEnv where
  htmlCsvMatches : List String
  csvOf : String → Frame
  csvBytes : String → Nat
  monthArg : Option String
  force : Bool
  existing : List String
  prevMonth : String
  now : String

/-- The target-month resolution of apartmentlist_pull.py lines 240-252:
month embedded in the first CSV filename, else the CLI override, else the
month before today. -/
def apt_resolve_month (env : AptEnv) (url : String) : String :=
  match searchMonthCsv url.data, env.monthArg with
  | some ym, none => ym
  | _, some m => m
  | none, none => env.prevMonth

def aptBronzePath (t : String) : String :=
  "data/bronze/apartmentlist/date=" ++ t ++ "/apartmentlist_historic.csv"

def aptSilverPath (t : String) : String :=
  "data/silver/apartmentlist/date=" ++ t ++ "/apartmentlist_tampa.parquet"

/-- The diagnostic block of apartmentlist_pull.py lines 296-304, printed when
no variant matched. -/
def aptNoDataPrints (df : Frame) : List String :=
  let cols2 := df.cols.map (fun c => replaceChar ' ' '_' (lowerStr (pyStrip c)))
  let rows2 := df.rows.map (fun r =>
    r.map (fun p => (replaceChar ' ' '_' (lowerStr (pyStrip p.1)), p.2)))
  ["", "No ApartmentList data for Tampa found.", "Available metro areas in file:"] ++
    (if cols2.contains "region_name" && cols2.contains "region_type" then
      let metros := uniqueVals (rows2.filter (fun r =>
        match getCell r "region_type" with
        | some t => lowerStr t == "msa"
        | none => false)) "region_name"
      let flMetros := metros.filter (fun m => strContains m "FL")
      ["Florida metros (" ++ natStr flMetros.length ++ "): " ++
        pyListRepr (flMetros.take 10)]
    else [])

/-- Embedding of `main` of apartmentlist_pull.py (lines 219-314). -/
def aptMain (env : AptEnv) : List Effect × Outcome :=
  let pre := [Effect.stdout "Fetching ApartmentList research page...",
    Effect.fetchPage aptPAGE_URL]
  let disc := discover_csv_urls env.htmlCsvMatches
  let pre := pre ++ disc.1.map Effect.stdout
  match disc.2 with
  | [] =>
    (pre ++ [.stdout "ERROR: No CSV links found on ApartmentList page.",
      .stdout "The page structure may have changed."], .ok)
  | (_label, url) :: _ =>
    let pre := pre ++ [Effect.stdout "",
      Effect.stdout ("Found " ++ natStr disc.2.length ++ " CSV link(s)")]
    let target := apt_resolve_month env url
    let pre := pre ++ [Effect.stdout ("Target month: " ++ target)]
    if shouldSkip env.existing target env.force then
      (pre ++ [.stdout ("apartmentlist: " ++ target ++ " already ingested. Skipping.")],
       .ok)
    else
      let bp := aptBronzePath target
      let pre := pre ++
        [Effect.stdout ("Downloading from " ++ String.mk (url.data.take 100) ++ "..."),
         Effect.fetchCsv url, Effect.writeBronze bp,
         Effect.stdout ("Saved to " ++ bp ++ " (" ++ natStr (env.csvBytes url) ++ " bytes)")]
      let df := env.csvOf url
      let pre := pre ++ [Effect.stdout "", Effect.stdout ("Processing " ++ bp ++ "..."),
        Effect.stdout ("Loaded " ++ natStr df.rows.length ++ " rows, " ++
          natStr df.cols.length ++ " columns")]
      let tv := apt_try_variants df tampa_names env.now
      let pre := pre ++ tv.1.map Effect.stdout
      match tv.2 with
      | [] => (pre ++ (aptNoDataPrints df).map Effect.stdout, .ok)
      | frames =>
        let combined := drop_duplicates aptKey frames.flatten
        let sp := aptSilverPath target
        (pre ++ [.writeSilver target sp combined.length, .stdout "",
          .stdout (mkSummary "apartmentlist" target combined.length sp)], .ok)

end RentSignals

namespace RentSignals

/-! ## Derived run observables used by the theorems -/

/-- The URL of the first discovered CSV link (the one the ApartmentList run
downloads). -/
def aptFirstUrl (env : AptEnv) : Option String :=
  ((discover_csv_urls env.htmlCsvMatches).2.head?).map Prod.snd

/-- The period an ApartmentList run resolves to, when discovery finds a
link. -/
def aptTarget (env : AptEnv) : Option String :=
  (aptFirstUrl env).map (apt_resolve_month env)

/-- A Zillow link is processed cleanly by a run when either the month
inference fails before bronze (nothing landed), the period is skipped, or
the transformation succeeds (silver frame collected); the one remaining
case — bronze landed, then the transformer raised — leaves a partial
partition behind. -/
def zoriLinkClean (env : ZoriEnv) (link : String × String) : Bool :=
  match zoriTarget env link.2 with
  | none => true
  | some t =>
    shouldSkip env.existing t env.force ||
      ((tidy_zori (env.csvOf link.2) (zoriFilters link.1).1 (zoriFilters link.1).2.1
        (zoriFilters link.1).2.2 env.now).isOk)

/-- The months of the silver partitions a Zillow run lands. -/
def zoriSilverMonths (env : ZoriEnv) : List String :=
  ((zoriProcessLinks env (discover_zori_csv_links env.anchors)).2).map Prod.fst

/-- A standard-output line matching the contractual summary shape
`<source>: latest=<YYYY-MM> rows=<int> saved=<path>` verbatim. -/
def MatchesSummaryShape (src line : String) : Prop :=
  ∃ m n path, isYYYYMM m = true ∧
    line = src ++ ": latest=" ++ m ++ " rows=" ++ natStr n ++ " saved=" ++ path

end RentSignals

namespace RentSignals

def Effect.isPageFetch : Effect → Bool
  | .fetchPage _ => true
  | _ => false

/-! ## Concrete scenarios used by the claim theorems -/

def emptyFrame : Frame := { cols := [], rows := [] }

/-- The synthetic wide input of the wide-to-long conservation test: identity
columns region_name / region_type, value columns 2021_01 = 100 and
2021_02 = 102. -/
def exC7Frame : Frame :=
  { cols := ["region_name", "region_type", "2021_01", "2021_02"],
    rows := [[("region_name", "Tampa, FL"), ("region_type", "Metro"),
              ("2021_01", "100"), ("2021_02", "102")]] }

/-- A Zillow wide input whose single value cell is the non-numeric "N/A". -/
def exC3Frame : Frame :=
  { cols := ["RegionName", "RegionType", "2021-01-31"],
    rows := [[("RegionName", "Tampa, FL"), ("RegionType", "Msa"),
              ("2021-01-31", "N/A")]] }

def exC3Row : ZoriTidyRow :=
  { source := "zillow_zori", region_type := some "Msa",
    region_name := some "Tampa, FL", region_id := none, period := "2021-01",
    value := none, pulled_at := "t" }

/-- A Zillow wide input with two distinct rows sharing (period, region
name). -/
def exC4Frame : Frame :=
  { cols := ["RegionID", "RegionName", "RegionType", "2021-01-31"],
    rows := [[("RegionID", "1"), ("RegionName", "Tampa, FL"),
              ("RegionType", "Msa"), ("2021-01-31", "100")],
             [("RegionID", "2"), ("RegionName", "Tampa, FL"),
              ("RegionType", "Msa"), ("2021-01-31", "200")]] }

def exC4Row1 : ZoriTidyRow :=
  { source := "zillow_zori", region_type := some "Msa",
    region_name := some "Tampa, FL", region_id := some "1", period := "2021-01",
    value := some ⟨100, 0⟩, pulled_at := "t" }

def exC4Row2 : ZoriTidyRow :=
  { source := "zillow_zori", region_type := some "Msa",
    region_name := some "Tampa, FL", region_id := some "2", period := "2021-01",
    value := some ⟨200, 0⟩, pulled_at := "t" }

/-- An ApartmentList input containing the Tampa metro only under the name
"Tampa, FL" (the second configured variant), plus another metro. -/
def exC8Frame : Frame :=
  { cols := ["location_name", "location_type", "location_fips_code",
             "bed_size", "2021_01"],
    rows := [[("location_name", "Tampa, FL"), ("location_type", "Metro"),
              ("location_fips_code", "4501"), ("bed_size", "2br"),
              ("2021_01", "1500")],
             [("location_name", "Miami, FL"), ("location_type", "Metro"),
              ("location_fips_code", "4502"), ("bed_size", "2br"),
              ("2021_01", "1800")]] }

def exC8Row : AptTidyRow :=
  { source := "apartmentlist", region_type := "Metro",
    region_name := "Tampa, FL", region_id := some "4501",
    bed_size := some "2br", period := "2021-01", value := some ⟨1500, 0⟩,
    pulled_at := "t" }

/-- The two tidy rows the wide-to-long conservation test expects. -/
def exC7Row1 (pa : String) : AptTidyRow :=
  { source := "apartmentlist", region_type := "Metro",
    region_name := "Tampa, FL", region_id := none, bed_size := none,
    period := "2021-01", value := some ⟨100, 0⟩, pulled_at := pa }

def exC7Row2 (pa : String) : AptTidyRow :=
  { source := "apartmentlist", region_type := "Metro",
    region_name := "Tampa, FL", region_id := none, bed_size := none,
    period := "2021-02", value := some ⟨102, 0⟩, pulled_at := pa }

/-- An ApartmentList run environment whose page carries one historic CSV for
2021-01 containing Tampa data. -/
def exC1AptEnv : AptEnv :=
  { htmlCsvMatches :=
      ["//assets.ctfassets.net/x/Apartment_List_Rent_Estimates_2021_01.csv"],
    csvOf := fun _ => exC8Frame,
    csvBytes := fun _ => 64,
    monthArg := none, force := false, existing := [], prevMonth := "2020-12",
    now := "t" }

/-- The same environment after the first run has landed silver 2021-01. -/
def exC1AptEnv2 : AptEnv := { exC1AptEnv with existing := ["2021-01"] }

/-- An ApartmentList landing page whose only CSV URL is a Summary file: zero
artifacts match the discovery rule. -/
def exC2AptEnv : AptEnv :=
  { htmlCsvMatches :=
      ["//assets.ctfassets.net/x/Apartment_List_Rent_Estimates_Summary_2021_01.csv"],
    csvOf := fun _ => emptyFrame,
    csvBytes := fun _ => 0,
    monthArg := none, force := false, existing := [], prevMonth := "2020-12",
    now := "t" }

/-- A Zillow research page with one anchor that matches no ZORI CSV
pattern: zero artifacts are discovered. -/
def exC2ZoriEnv : ZoriEnv :=
  { anchors := [("https://x.com/other-data.csv", "Download")],
    csvOf := fun _ => emptyFrame,
    existing := [], monthArg := none, force := false, now := "t" }

/-- A FRED run with the API-key environment variable unset. -/
def exC6Env : FredEnv :=
  { apiKey := none,
    observations := [⟨"2025-09-01", "431.2"⟩],
    existing := [], force := false, today := (2025, 10, 12), now := "t" }

/-- A Zillow CSV with one Tampa metro row for 2021-01. -/
def exZoriCsv : Frame :=
  { cols := ["RegionID", "SizeRank", "RegionName", "RegionType", "StateName",
             "2021-01-31"],
    rows := [[("RegionID", "394514"), ("SizeRank", "1"),
              ("RegionName", "Tampa, FL"), ("RegionType", "Msa"),
              ("StateName", "FL"), ("2021-01-31", "1500.5")]] }

/-- A Zillow run whose page offers a metro and a city CSV, both resolving to
the same month 2021-01: the run lands one partition but writes it twice and
prints two summary lines. -/
def exC9ZoriEnv : ZoriEnv :=
  { anchors := [("https://x.com/public_csvs/zori/Metro_zori.csv", "Download"),
                ("https://x.com/public_csvs/zori/City_zori.csv", "Download")],
    csvOf := fun _ => exZoriCsv,
    existing := [], monthArg := none, force := false, now := "t" }

def exC9Line1 : String :=
  "zillow_zori: latest=2021-01 rows=1 saved=data/silver/zillow_zori/date=2021-01/zori_tampa.parquet"

def exC9Line2 : String :=
  "zillow_zori: latest=2021-01 rows=0 saved=data/silver/zillow_zori/date=2021-01/zori_tampa.parquet"

/-- A FRED run with a key and three observations across three months. -/
def exC10FredEnv : FredEnv :=
  { apiKey := some "k",
    observations := [⟨"2025-07-01", "430.1"⟩, ⟨"2025-09-01", "431.2"⟩,
                     ⟨"2025-08-01", "."⟩],
    existing := [], force := false, today := (2025, 10, 12), now := "t" }

/-- A CLI month override, when present, is well-formed `YYYY-MM`. -/
def monthOk : Option String → Bool
  | none => true
  | some m => isYYYYMM m

instance : IsTotal FredObs (fun a b => obsKey a ≤ obsKey b) :=
  ⟨fun a b => Nat.le_total (obsKey a) (obsKey b)⟩

instance : IsTrans FredObs (fun a b => obsKey a ≤ obsKey b) :=
  ⟨fun _ _ _ hab hbc => Nat.le_trans hab hbc⟩

end RentSignals

namespace RentSignals

/-! ## Helper lemmas -/

@[simp] lemma writesOf_nil : writesOf [] = [] := rfl

@[simp] lemma writesOf_append (a b : List Effect) :
    writesOf (a ++ b) = writesOf a ++ writesOf b := by
  unfold writesOf
  rw [List.filter_append]

@[simp] lemma writesOf_stdout_cons (s : String) (es : List Effect) :
    writesOf (.stdout s :: es) = writesOf es := rfl

@[simp] lemma writesOf_fetchPage_cons (u : String) (es : List Effect) :
    writesOf (.fetchPage u :: es) = writesOf es := rfl

@[simp] lemma writesOf_fetchCsv_cons (u : String) (es : List Effect) :
    writesOf (.fetchCsv u :: es) = writesOf es := rfl

@[simp] lemma writesOf_map_stdout (l : List String) :
    writesOf (l.map .stdout) = [] := by
  induction l with
  | nil => rfl
  | cons a t ih => simpa using ih

@[simp] lemma writesOf_map_fetchCsv {α : Type} (f : α → String) (l : List α) :
    writesOf (l.map (fun x => Effect.fetchCsv (f x))) = [] := by
  induction l with
  | nil => rfl
  | cons a t ih => simpa using ih

@[simp] lemma silverWritesOf_nil : silverWritesOf [] = [] := rfl

@[simp] lemma silverWritesOf_append (a b : List Effect) :
    silverWritesOf (a ++ b) = silverWritesOf a ++ silverWritesOf b := by
  unfold silverWritesOf
  rw [List.filter_append]

@[simp] lemma silverWritesOf_stdout_cons (s : String) (es : List Effect) :
    silverWritesOf (.stdout s :: es) = silverWritesOf es := rfl

@[simp] lemma silverWritesOf_fetchPage_cons (u : String) (es : List Effect) :
    silverWritesOf (.fetchPage u :: es) = silverWritesOf es := rfl

@[simp] lemma silverWritesOf_fetchCsv_cons (u : String) (es : List Effect) :
    silverWritesOf (.fetchCsv u :: es) = silverWritesOf es := rfl

@[simp] lemma silverWritesOf_writeBronze_cons (p : String) (es : List Effect) :
    silverWritesOf (.writeBronze p :: es) = silverWritesOf es := rfl

@[simp] lemma silverWritesOf_writeSilver_cons (m p : String) (n : Nat) (es : List Effect) :
    silverWritesOf (.writeSilver m p n :: es) =
      .writeSilver m p n :: silverWritesOf es := rfl

lemma prefixAt_append_self (s t : List Char) : prefixAt s (s ++ t) = true := by
  induction s with
  | nil => rfl
  | cons c cs ih => simp [prefixAt, ih]

lemma containsSub_self_append (s y : List Char) :
    containsSub s (s ++ y) = true := by
  cases hs : s ++ y with
  | nil =>
    rcases List.append_eq_nil.mp hs with ⟨rfl, rfl⟩
    rfl
  | cons b bs =>
    have hstep : containsSub s (b :: bs) =
        (prefixAt s (b :: bs) || containsSub s bs) := rfl
    rw [hstep, ← hs, prefixAt_append_self]
    simp

lemma containsSub_mid (s x y : List Char) :
    containsSub s (x ++ (s ++ y)) = true := by
  induction x with
  | nil => simpa using containsSub_self_append s y
  | cons c cs ih =>
    have hstep : containsSub s (c :: (cs ++ (s ++ y))) =
        (prefixAt s (c :: (cs ++ (s ++ y))) || containsSub s (cs ++ (s ++ y))) := rfl
    simp only [List.cons_append, hstep, ih, Bool.or_true]

/-- Any line of the contractual summary shape contains the separator
`": latest="`. -/
lemma shape_contains_sep {src line : String} (h : MatchesSummaryShape src line) :
    containsSub (": latest=").data line.data = true := by
  obtain ⟨m, n, path, _, rfl⟩ := h
  simp only [String.data_append]
  have := containsSub_mid (": latest=").data src.data
    (m.data ++ ((" rows=").data ++ ((natStr n).data ++ ((" saved=").data ++ path.data))))
  simpa [List.append_assoc] using this

lemma not_shape_of_no_sep {src line : String}
    (h : containsSub (": latest=").data line.data = false) :
    ¬ MatchesSummaryShape src line := by
  intro hs
  rw [shape_contains_sep hs] at h
  exact Bool.noConfusion h

lemma digitChar_isDigit {d : Nat} (h : d < 10) : (digitChar d).isDigit = true := by
  interval_cases d <;> decide

lemma isYYYYMM_fmtYM (y m : Nat) : isYYYYMM (fmtYM y m) = true := by
  have h1 := digitChar_isDigit (Nat.mod_lt (y / 1000) (by norm_num))
  have h2 := digitChar_isDigit (Nat.mod_lt (y / 100) (by norm_num))
  have h3 := digitChar_isDigit (Nat.mod_lt (y / 10) (by norm_num))
  have h4 := digitChar_isDigit (Nat.mod_lt y (by norm_num))
  have h5 := digitChar_isDigit (Nat.mod_lt (m / 10) (by norm_num))
  have h6 := digitChar_isDigit (Nat.mod_lt m (by norm_num))
  simp [isYYYYMM, fmtYM, pad4, pad2, h1, h2, h3, h4, h5, h6]

lemma latest_month_shape {f : Frame} {s : String}
    (h : latest_month_from_df f = .ok s) : ∃ y m, s = fmtYM y m := by
  unfold latest_month_from_df at h
  cases hc : f.cols.filterMap parseYMD? with
  | nil => rw [hc] at h; exact absurd h (by simp)
  | cons d ds =>
    rw [hc] at h
    simp only [Res.ok.injEq] at h
    exact ⟨_, _, h.symm⟩

/-! dedup characterization -/

lemma dropDupGo_filter_key {α β : Type} (key : α → β) [DecidableEq β]
    (l : List α) (seen : List β) (k : β) :
    (dropDupGo key seen l).filter (fun r => decide (key r = k)) =
      if k ∈ seen then [] else (l.filter (fun r => decide (key r = k))).take 1 := by
  induction l generalizing seen with
  | nil => simp [dropDupGo]
  | cons r rs ih =>
    by_cases hr : key r ∈ seen
    · rw [dropDupGo, if_pos hr, ih]
      by_cases hk : k ∈ seen
      · simp [hk]
      · have hne : ¬ (key r = k) := fun he => hk (he ▸ hr)
        simp [hk, List.filter_cons, hne]
    · rw [dropDupGo, if_neg hr]
      by_cases hrk : key r = k
      · subst hrk
        rw [List.filter_cons]
        simp only [decide_eq_true_eq, if_pos rfl]
        rw [ih]
        have hmem : key r ∈ key r :: seen := List.mem_cons_self _ _
        rw [if_pos hmem, if_neg hr, List.filter_cons]
        simp
      · rw [List.filter_cons]
        simp only [decide_eq_true_eq, if_neg hrk]
        rw [ih]
        have hms : (k ∈ key r :: seen) ↔ k ∈ seen := by
          constructor
          · intro h
            rcases List.mem_cons.mp h with h1 | h2
            · exact absurd h1.symm hrk
            · exact h2
          · exact List.mem_cons_of_mem _
        by_cases hk : k ∈ seen
        · rw [if_pos (List.mem_cons_of_mem _ hk), if_pos hk]
        · rw [if_neg (fun h => hk (hms.mp h)), if_neg hk, List.filter_cons]
          simp [hrk]

lemma dropDupGo_sublist {α β : Type} (key : α → β) [DecidableEq β]
    (l : List α) (seen : List β) : List.Sublist (dropDupGo key seen l) l := by
  induction l generalizing seen with
  | nil => simp [dropDupGo]
  | cons r rs ih =>
    rw [dropDupGo]
    by_cases hr : key r ∈ seen
    · rw [if_pos hr]
      exact List.Sublist.cons r (ih seen)
    · rw [if_neg hr]
      exact List.Sublist.cons₂ r (ih (key r :: seen))

end RentSignals

namespace RentSignals

/-! ## Run-level lemmas -/

lemma apt_target_update (env : AptEnv) (E : List String) :
    aptTarget { env with existing := E } = aptTarget env := rfl

/-- A run whose resolved period is already landed takes the skip branch and
performs no writes at all. -/
lemma apt_run_skips (env : AptEnv) (m : String) (hf : env.force = false)
    (ht : aptTarget env = some m) (hm : env.existing.contains m = true) :
    writesOf (aptMain env).1 = [] := by
  unfold aptTarget aptFirstUrl at ht
  simp only [aptMain]
  cases hd : (discover_csv_urls env.htmlCsvMatches).2 with
  | nil =>
    rw [hd] at ht
    simp at ht
  | cons p rest =>
    rw [hd] at ht
    obtain ⟨lab, url⟩ := p
    simp only [List.head?_cons, Option.map, Option.some.injEq] at ht
    have hskip : shouldSkip env.existing (apt_resolve_month env url) env.force = true := by
      rw [ht, hf]
      simp only [shouldSkip, Bool.not_false, Bool.true_and]
      exact hm
    simp only [hskip, if_true]
    simp

lemma zoriProcessLinks_cons (env : ZoriEnv) (a : String × String)
    (t : List (String × String)) :
    zoriProcessLinks env (a :: t) =
      ((zoriProcessLink env a).1 ++ (zoriProcessLinks env t).1,
       (zoriProcessLink env a).2.toList ++ (zoriProcessLinks env t).2) := rfl

lemma zoriProcessLink_mem (env : ZoriEnv) (links : List (String × String))
    (l : String × String) (hl : l ∈ links) (md : String × List ZoriTidyRow)
    (h : (zoriProcessLink env l).2 = some md) :
    md ∈ (zoriProcessLinks env links).2 := by
  induction links with
  | nil => cases hl
  | cons a t ih =>
    rw [zoriProcessLinks_cons]
    rcases List.mem_cons.mp hl with rfl | hmem
    · rw [h]
      simp
    · exact List.mem_append_right _ (ih hmem)

/-- On a second invocation whose existing partitions cover all months the
first invocation landed, every clean link is skipped before bronze. -/
lemma zoriProcessLink_second (env : ZoriEnv) (M : List String) (l : String × String)
    (hf : env.force = false) (hcl : zoriLinkClean env l = true)
    (hm : ∀ md : String × List ZoriTidyRow,
      (zoriProcessLink env l).2 = some md → md.1 ∈ M) :
    zoriProcessLink { env with existing := env.existing ++ M } l =
      ([.fetchCsv l.2], none) := by
  have htgt : zoriTarget { env with existing := env.existing ++ M } l.2 =
      zoriTarget env l.2 := rfl
  unfold zoriProcessLink
  rw [htgt]
  cases ht : zoriTarget env l.2 with
  | none => rfl
  | some t =>
    unfold zoriLinkClean at hcl
    rw [ht] at hcl
    simp only [] at hcl
    have hmem2 : t ∈ env.existing ++ M := by
      cases h1 : shouldSkip env.existing t env.force with
      | true =>
        have : t ∈ env.existing := by
          unfold shouldSkip at h1
          rw [hf] at h1
          simpa using List.elem_iff.mp (by simpa using h1)
        exact List.mem_append_left _ this
      | false =>
        rw [h1] at hcl
        simp only [Bool.false_or] at hcl
        cases htd : tidy_zori (env.csvOf l.2) (zoriFilters l.1).1
            (zoriFilters l.1).2.1 (zoriFilters l.1).2.2 env.now with
        | err e => rw [htd] at hcl; exact absurd hcl (by simp [Res.isOk])
        | ok rows =>
          have h2 : (zoriProcessLink env l).2 = some (t, rows) := by
            unfold zoriProcessLink
            rw [ht]
            simp [h1, htd]
          exact List.mem_append_right _ (hm (t, rows) h2)
    have hskip2 : shouldSkip (env.existing ++ M) t env.force = true := by
      unfold shouldSkip
      rw [hf]
      simpa using List.elem_iff.mpr hmem2
    simp only [hskip2, if_true]

lemma zoriProcessLinks_allskip (env2 : ZoriEnv) (links : List (String × String))
    (h : ∀ l ∈ links, zoriProcessLink env2 l = ([.fetchCsv l.2], none)) :
    zoriProcessLinks env2 links =
      (links.map (fun l => Effect.fetchCsv l.2), []) := by
  induction links with
  | nil => rfl
  | cons a t ih =>
    rw [zoriProcessLinks_cons, h a (List.mem_cons_self _ _),
      ih (fun l hl => h l (List.mem_cons_of_mem _ hl))]
    simp

lemma zori_second_run_no_writes (env : ZoriEnv) (hf : env.force = false)
    (hcl : ∀ l ∈ discover_zori_csv_links env.anchors, zoriLinkClean env l = true) :
    writesOf (zoriMain { env with
      existing := env.existing ++ zoriSilverMonths env }).1 = [] := by
  have hdisc : discover_zori_csv_links
      ({ env with existing := env.existing ++ zoriSilverMonths env } : ZoriEnv).anchors =
      discover_zori_csv_links env.anchors := rfl
  have hall : ∀ l ∈ discover_zori_csv_links env.anchors,
      zoriProcessLink { env with existing := env.existing ++ zoriSilverMonths env } l =
        ([.fetchCsv l.2], none) := by
    intro l hl
    refine zoriProcessLink_second env _ l hf (hcl l hl) ?_
    intro md hmd
    unfold zoriSilverMonths
    exact List.mem_map_of_mem Prod.fst (zoriProcessLink_mem env _ l hl md hmd)
  simp only [zoriMain, hdisc]
  cases hL : discover_zori_csv_links env.anchors with
  | nil => simp
  | cons a t =>
    rw [zoriProcessLinks_allskip _ _ (by rw [hL] at hall; exact hall)]
    simp

lemma fred_second_run_no_writes (env : FredEnv) (hf : env.force = false) :
    writesOf (fredMain { env with
      existing := env.existing ++ [fredLatestPeriod env.observations] }).1 = [] := by
  have hskip : shouldSkip (env.existing ++ [fredLatestPeriod env.observations])
      (fredLatestPeriod env.observations) env.force = true := by
    unfold shouldSkip
    rw [hf]
    simp only [Bool.not_false, Bool.true_and]
    exact List.elem_iff.mpr (List.mem_append_right _ (List.mem_singleton.mpr rfl))
  simp only [fredMain]
  split
  · simp
  · split
    · simp
    · split
      · simp
      · simp [hskip]

lemma zoriProcessLink_fst (env : ZoriEnv) (l : String × String) :
    (zoriProcessLink env l).1 = [.fetchCsv l.2] ∨
      ∃ p, (zoriProcessLink env l).1 = [.fetchCsv l.2, .writeBronze p] := by
  unfold zoriProcessLink
  split
  · exact Or.inl rfl
  · split
    · exact Or.inl rfl
    · split
      split
      · exact Or.inr ⟨_, rfl⟩
      · exact Or.inr ⟨_, rfl⟩

lemma zoriProcessLink_effects (env : ZoriEnv) (l : String × String) :
    ∀ e ∈ (zoriProcessLink env l).1,
      e.isSilverWrite = false ∧ ∀ s, e ≠ .stdout s := by
  intro e he
  rcases zoriProcessLink_fst env l with h | ⟨p, h⟩ <;> rw [h] at he
  · rcases List.mem_singleton.mp he with rfl
    exact ⟨rfl, fun s => by simp⟩
  · rcases List.mem_cons.mp he with rfl | he2
    · exact ⟨rfl, fun s => by simp⟩
    · rcases List.mem_singleton.mp he2 with rfl
      exact ⟨rfl, fun s => by simp⟩

lemma zoriProcessLinks_effects (env : ZoriEnv) (links : List (String × String)) :
    ∀ e ∈ (zoriProcessLinks env links).1,
      e.isSilverWrite = false ∧ ∀ s, e ≠ .stdout s := by
  induction links with
  | nil => intro e he; cases he
  | cons a t ih =>
    intro e he
    rw [zoriProcessLinks_cons] at he
    rcases List.mem_append.mp he with h1 | h2
    · exact zoriProcessLink_effects env a e h1
    · exact ih e h2

lemma zoriProcessLink_snd_target (env : ZoriEnv) (l : String × String)
    (md : String × List ZoriTidyRow) (h : (zoriProcessLink env l).2 = some md) :
    zoriTarget env l.2 = some md.1 := by
  unfold zoriProcessLink at h
  split at h
  · simp at h
  · rename_i t heq
    split at h
    · simp at h
    · split at h
      split at h
      · simp at h
      · simp only [Option.some.injEq] at h
        rw [heq, ← h]

lemma zoriTarget_month_ok (env : ZoriEnv) (hmo : monthOk env.monthArg = true)
    (url t : String) (h : zoriTarget env url = some t) : isYYYYMM t = true := by
  unfold zoriTarget at h
  split at h
  · simp at h
  · rename_i latest hlat
    simp only [Option.some.injEq] at h
    cases hma : env.monthArg with
    | some m =>
      rw [hma] at h
      unfold monthOk at hmo
      rw [hma] at hmo
      rw [← h]
      exact hmo
    | none =>
      rw [hma] at h
      obtain ⟨y, mo, rfl⟩ := latest_month_shape hlat
      rw [← h]
      exact isYYYYMM_fmtYM y mo

lemma zoriFrames_months (env : ZoriEnv) (hmo : monthOk env.monthArg = true)
    (links : List (String × String)) :
    ∀ md ∈ (zoriProcessLinks env links).2, isYYYYMM md.1 = true := by
  induction links with
  | nil => intro md h; cases h
  | cons a t ih =>
    intro md h
    rw [zoriProcessLinks_cons] at h
    rcases List.mem_append.mp h with h1 | h2
    · cases hs : (zoriProcessLink env a).2 with
      | none => rw [hs] at h1; cases h1
      | some md2 =>
        rw [hs] at h1
        rcases List.mem_singleton.mp h1 with rfl
        exact zoriTarget_month_ok env hmo a.2 md.1
          (zoriProcessLink_snd_target env a md hs)
    · exact ih md h2

lemma zoriEmit_eq (frames : List (String × List ZoriTidyRow)) :
    zoriEmit frames = (frames.map (fun f => (f.1, f.2.length))).flatMap
      (fun md => [Effect.writeSilver md.1 (zoriSilverPath md.1) md.2,
        Effect.stdout (mkSummary "zillow_zori" md.1 md.2 (zoriSilverPath md.1))]) := by
  induction frames with
  | nil => rfl
  | cons f fs ih => simp [zoriEmit, ih]

lemma sorted_key_le_getLastD :
    ∀ l : List FredObs, l.Sorted (fun a b => obsKey a ≤ obsKey b) →
      ∀ x ∈ l, ∀ d, obsKey x ≤ obsKey (l.getLastD d) := by
  intro l
  induction l with
  | nil =>
    intro _ x hx
    cases hx
  | cons a t ih =>
    intro hs x hx d
    rw [List.getLastD_cons]
    rcases List.mem_cons.mp hx with rfl | hx2
    · cases t with
      | nil => simp [List.getLastD]
      | cons b t2 =>
        have hab : obsKey x ≤ obsKey b :=
          (List.sorted_cons.mp hs).1 b (List.mem_cons_self _ _)
        have hbl : obsKey b ≤ obsKey ((b :: t2).getLastD x) :=
          ih (List.sorted_cons.mp hs).2 b (List.mem_cons_self _ _) x
        exact Nat.le_trans hab hbl
    · exact ih (List.sorted_cons.mp hs).2 x hx2 a

lemma fredSorted_sorted (obs : List FredObs) :
    (fredSorted obs).Sorted (fun a b => obsKey a ≤ obsKey b) :=
  List.sorted_insertionSort _ obs

lemma fredSorted_perm (obs : List FredObs) : (fredSorted obs).Perm obs :=
  List.perm_insertionSort _ obs

end RentSignals

namespace RentSignals

/-! ## Claim theorems -/

/-- C1 counterexample: invoking the ApartmentList run twice for the same
resolved period (2021-01) without the force flag does NOT perform the
fetch/discovery exactly once — the landing page is fetched and discovery is
re-run on the second invocation as well (two page fetches across the two
runs), even though the second run performs zero writes. -/
theorem c1_fetch_once_counterexample :
    (((aptMain exC1AptEnv).1 ++ (aptMain exC1AptEnv2).1).filter
      Effect.isPageFetch).length = 2 ∧
    silverMonthsOf (aptMain exC1AptEnv).1 = ["2021-01"] ∧
    exC1AptEnv2.existing = ["2021-01"] ∧
    writesOf (aptMain exC1AptEnv2).1 = [] := by
  refine ⟨rfl, rfl, rfl, rfl⟩

/-- C1 (amended): the skip decision is true iff the period is among the
existing silver months and force is false; a second invocation of any of
the three runs for an already-landed period performs zero additional bronze
or silver writes (for the zillow run, provided the first run processed each
link cleanly, i.e. no link landed bronze and then failed in the
transformer).  Discovery/fetch, however, is performed again by the second
invocation (see the counterexample). -/
theorem c1_idempotent_skip_amended :
    (∀ (existing : List String) (p : String) (f : Bool),
      shouldSkip existing p f = true ↔ (p ∈ existing ∧ f = false)) ∧
    (∀ (env : AptEnv) (m : String), env.force = false → aptTarget env = some m →
      writesOf (aptMain { env with existing := env.existing ++ [m] }).1 = []) ∧
    (∀ env : ZoriEnv, env.force = false →
      (∀ l ∈ discover_zori_csv_links env.anchors, zoriLinkClean env l = true) →
      writesOf (zoriMain { env with
        existing := env.existing ++ zoriSilverMonths env }).1 = []) ∧
    (∀ env : FredEnv, env.force = false →
      writesOf (fredMain { env with
        existing := env.existing ++ [fredLatestPeriod env.observations] }).1 = []) := by
  refine ⟨?_, ?_, zori_second_run_no_writes, fred_second_run_no_writes⟩
  · intro existing p f
    simp [shouldSkip, List.elem_iff]
    tauto
  · intro env m hf ht
    refine apt_run_skips _ m hf ?_ ?_
    · rw [apt_target_update]
      exact ht
    · exact List.elem_iff.mpr (List.mem_append_right _ (List.mem_singleton.mpr rfl))

/-- C1 witness: the amended theorem applied to the concrete ApartmentList
environment whose first run lands 2021-01. -/
theorem c1_idempotent_skip_witness :
    (exC1AptEnv.force = false ∧ aptTarget exC1AptEnv = some "2021-01") ∧
    writesOf (aptMain { exC1AptEnv with
      existing := exC1AptEnv.existing ++ ["2021-01"] }).1 = [] :=
  ⟨⟨rfl, by decide⟩,
   c1_idempotent_skip_amended.2.1 exC1AptEnv "2021-01" rfl (by decide)⟩

/-- C2: on a landing page with zero matching artifacts, the zillow run does
abort with a failure outcome and no files are created; the apartmentlist
run, however, prints an ERROR message and RETURNS NORMALLY (exit status 0,
indistinguishable from success by its caller, which checks the process
return code), contradicting the specified fatal `DiscoveryError`.  No
bronze or silver file is created in either case. -/
theorem c2_discovery_failure_code_bug :
    (aptMain exC2AptEnv).2 = Outcome.ok ∧
    writesOf (aptMain exC2AptEnv).1 = [] ∧
    (aptMain exC2AptEnv).1.filter Effect.isPageFetch = [.fetchPage aptPAGE_URL] ∧
    (zoriMain exC2ZoriEnv).2 =
      Outcome.error "No ZORI CSV links found on Zillow research page." ∧
    writesOf (zoriMain exC2ZoriEnv).1 = [] := by
  refine ⟨rfl, rfl, rfl, rfl, rfl⟩

/-- C3 counterexample: the zillow transformer does NOT drop a row whose
value cell fails numeric coercion — on an input whose only value cell is
"N/A" the output keeps the row with a null value, so not every output row
has a non-null numeric value. -/
theorem c3_numeric_coercion_counterexample :
    tidy_zori exC3Frame ["msa"] ["Tampa, FL"] none "t" = .ok [exC3Row] ∧
    exC3Row.value = none := by
  refine ⟨rfl, rfl⟩

/-- C3 (amended): the ApartmentList transformer drops every row whose value
fails numeric coercion, so each of its output rows has a non-null numeric
value; coercion never crashes and maps "N/A" and the empty string to
missing, never to zero.  The zillow transformer instead RETAINS such rows
with a null value (see the counterexample). -/
theorem c3_numeric_coercion_amended :
    (∀ (df : Frame) (lt ln pa : String) (out : List AptTidyRow),
      (tidy_apartmentlist df lt ln pa).2 = Res.ok out →
        ∀ r ∈ out, r.value.isSome = true) ∧
    toNumeric "N/A" = none ∧ toNumeric "" = none := by
  refine ⟨?_, rfl, rfl⟩
  intro df lt ln pa out h r hr
  simp only [tidy_apartmentlist] at h
  split at h
  · simp at h
  · split at h
    · simp only [Res.ok.injEq] at h
      subst h
      cases hr
    · split at h
      · simp at h
      · simp only [Res.ok.injEq] at h
        subst h
        exact (List.mem_filter.mp hr).2

/-- C3 witness: the amended drop property applied to the concrete
wide-to-long input, whose two coerced rows are both non-null. -/
theorem c3_numeric_coercion_witness :
    (tidy_apartmentlist exC7Frame "Metro" "Tampa, FL" "t").2 =
      Res.ok [exC7Row1 "t", exC7Row2 "t"] ∧
    (∀ r ∈ [exC7Row1 "t", exC7Row2 "t"], r.value.isSome = true) :=
  ⟨by decide,
   fun r hr => c3_numeric_coercion_amended.1 exC7Frame "Metro" "Tampa, FL" "t" _
     (by decide) r hr⟩

/-- C4 counterexample: the zillow transformation performs no deduplication —
two input rows sharing (period, region name) yield two distinct output rows
for the same key in the final tidy output that is written to silver. -/
theorem c4_deduplication_counterexample :
    tidy_zori exC4Frame ["msa"] ["Tampa, FL"] none "t" = .ok [exC4Row1, exC4Row2] ∧
    exC4Row1.period = exC4Row2.period ∧
    exC4Row1.region_name = exC4Row2.region_name ∧
    exC4Row1 ≠ exC4Row2 := by
  refine ⟨rfl, rfl, rfl, by decide⟩

/-- C4 (amended): the ApartmentList pipeline deduplicates its combined
output on (period, region name) keeping the first occurrence — for every
key, the deduplicated list holds exactly the first matching row of the
input, and it is a sublist of the input (no row is fabricated).  The zillow
transformation performs no such deduplication (see the counterexample). -/
theorem c4_deduplication_amended :
    ∀ (rows : List AptTidyRow) (k : String × String),
      (drop_duplicates aptKey rows).filter (fun r => decide (aptKey r = k)) =
        (rows.filter (fun r => decide (aptKey r = k))).take 1 ∧
      List.Sublist (drop_duplicates aptKey rows) rows := by
  intro rows k
  constructor
  · rw [drop_duplicates, dropDupGo_filter_key]
    simp
  · exact dropDupGo_sublist aptKey rows []

/-- C5 counterexample: the backoff before the third consecutive retry is
4 seconds (exponential, factor × 2 ^ (n−1)), not the 3 seconds that
"base delay × attempt count" (linear backoff) would give. -/
theorem c5_linear_backoff_counterexample :
    get_backoff_time create_session_retries 3 = 4 ∧
    create_session_retries.backoff_factor * 3 = 3 ∧ (4 : Nat) ≠ 3 := by
  refine ⟨rfl, rfl, by decide⟩

/-- C5 (amended): the sessions are configured with at most 5 retries,
retrying a GET exactly on statuses 500, 502, 503 and 504 — never on a 4xx
client error or on success — and urllib3 waits with EXPONENTIAL backoff:
no sleep before the first retry, then factor × 2 ^ (n − 1) seconds (capped
at 120) before the n-th, rather than the linear base × attempt of the
claim. -/
theorem c5_retry_policy_amended :
    create_session_retries.total = 5 ∧
    create_session_retries.backoff_factor = 1 ∧
    (∀ s : Nat, retryOnStatus create_session_retries "GET" s = true ↔
      (s = 500 ∨ s = 502 ∨ s = 503 ∨ s = 504)) ∧
    (∀ s : Nat, 400 ≤ s → s < 500 →
      retryOnStatus create_session_retries "GET" s = false) ∧
    retryOnStatus create_session_retries "GET" 200 = false ∧
    get_backoff_time create_session_retries 1 = 0 ∧
    (∀ n : Nat, 2 ≤ n →
      get_backoff_time create_session_retries n = min 120 (2 ^ (n - 1))) := by
  have hiff : ∀ s : Nat, retryOnStatus create_session_retries "GET" s = true ↔
      (s = 500 ∨ s = 502 ∨ s = 503 ∨ s = 504) := by
    intro s
    simp [retryOnStatus, create_session_retries, List.elem_iff]
  refine ⟨rfl, rfl, hiff, ?_, rfl, rfl, ?_⟩
  · intro s h4 h5
    cases hb : retryOnStatus create_session_retries "GET" s with
    | false => rfl
    | true =>
      rcases (hiff s).mp hb with rfl | rfl | rfl | rfl <;> omega
  · intro n hn
    unfold get_backoff_time
    rw [if_neg (by omega)]
    simp [create_session_retries]

/-- C5 witness: the amended policy evaluated at status 404 (no retry),
status 503 (retry), and the third retry (backoff 4 seconds). -/
theorem c5_retry_policy_witness :
    ((400 : Nat) ≤ 404 ∧ (404 : Nat) < 500 ∧ (2 : Nat) ≤ 3) ∧
    retryOnStatus create_session_retries "GET" 404 = false ∧
    retryOnStatus create_session_retries "GET" 503 = true ∧
    get_backoff_time create_session_retries 3 = min 120 (2 ^ (3 - 1)) :=
  ⟨⟨by decide, by decide, by decide⟩,
   c5_retry_policy_amended.2.2.2.1 404 (by decide) (by decide),
   (c5_retry_policy_amended.2.2.1 503).mpr (by decide),
   c5_retry_policy_amended.2.2.2.2.2.2 3 (by decide)⟩

/-- C6: with the API-key environment value absent, the FRED run terminates
before any network call (no fetch effects) and creates nothing — but it
prints guidance and RETURNS NORMALLY, so the process exits with status 0,
which its caller cannot distinguish from success; the specified distinct
non-zero `ConfigurationError` outcome does not exist in the code. -/
theorem c6_missing_credential_code_bug :
    (fredMain exC6Env).2 = Outcome.ok ∧
    fetchesOf (fredMain exC6Env).1 = [] ∧
    writesOf (fredMain exC6Env).1 = [] ∧
    stdoutOf (fredMain exC6Env).1 =
      ["ERROR: FRED_API_KEY environment variable is required.",
       "", "To get a free API key:",
       "1. Visit: https://fred.stlouisfed.org/docs/api/api_key.html",
       "2. Sign up for a free account",
       "3. Request an API key (instant approval)",
       "4. Set environment variable: export FRED_API_KEY=your_key_here",
       "", "Then run this script again."] := by
  refine ⟨rfl, rfl, rfl, rfl⟩

/-- C7: on the synthetic wide input with identity columns
region_name = "Tampa, FL", region_type = "Metro" and value columns
2021_01 = 100 and 2021_02 = 102, the ApartmentList transformer yields
exactly the two tidy rows (2021-01, 100) and (2021-02, 102), both carrying
the region identity, for every retrieval timestamp. -/
theorem c7_wide_to_long_conservation :
    ∀ pulledAt : String,
      tidy_apartmentlist exC7Frame "Metro" "Tampa, FL" pulledAt =
        ([], .ok [exC7Row1 pulledAt, exC7Row2 pulledAt]) := by
  intro pa
  rfl

/-- C8: a row passes the geographic filter iff its region type equals the
configured type case-insensitively AND its region name contains the
configured variant case-insensitively; the variant loop tries the
configured names in order and stops at the first variant whose
transformation yields at least one row; in the concrete scenario with
variants ["Tampa-St. Petersburg-Clearwater, FL", "Tampa, FL"] and a
dataset containing only the second, the rows are selected via the second
variant and the result is non-empty (the no-data branch, which is what
reports the missing region, is not taken). -/
theorem c8_geographic_filter_first_variant :
    (apt_try_variants exC8Frame
        ["Tampa-St. Petersburg-Clearwater, FL", "Tampa, FL"] "t" =
      (["✓ Found 1 rows for Tampa, FL"], [[exC8Row]])) ∧
    (tidy_apartmentlist exC8Frame "Metro" "Tampa-St. Petersburg-Clearwater, FL" "t" =
      ([], .ok [])) ∧
    (tidy_apartmentlist exC8Frame "Metro" "Tampa, FL" "t" = ([], .ok [exC8Row])) ∧
    (∀ (df : Frame) (lt ln : String) (r : Row),
      r ∈ (aptNormalize df).rows.filter
          (fun r => aptTypeMatches lt r && aptNameMatches ln r) ↔
        (r ∈ (aptNormalize df).rows ∧ aptTypeMatches lt r = true ∧
          aptNameMatches ln r = true)) ∧
    (∀ (df : Frame) (pa n : String) (rest : List String) (prints : List String)
        (rows : List AptTidyRow),
      tidy_apartmentlist df "Metro" n pa = (prints, .ok rows) → rows.length > 0 →
        apt_try_variants df (n :: rest) pa =
          (prints ++ ["✓ Found " ++ natStr rows.length ++ " rows for " ++ n],
           [rows])) ∧
    (∀ (df : Frame) (pa n : String) (rest : List String) (prints : List String),
      tidy_apartmentlist df "Metro" n pa = (prints, .ok []) →
        (apt_try_variants df (n :: rest) pa).2 = (apt_try_variants df rest pa).2) := by
  refine ⟨by decide, by decide, by decide, ?_, ?_, ?_⟩
  · intro df lt ln r
    rw [List.mem_filter]
    simp [Bool.and_eq_true]
  · intro df pa n rest prints rows h hlen
    unfold apt_try_variants
    rw [h]
    simp only [hlen, if_true]
  · intro df pa n rest prints h
    simp only [apt_try_variants, h]
    simp

/-- C8 witness: the first-yielding-variant rule applied to the concrete
frame and the variant "Tampa, FL". -/
theorem c8_geographic_filter_witness :
    (tidy_apartmentlist exC8Frame "Metro" "Tampa, FL" "t" = ([], .ok [exC8Row]) ∧
      ([exC8Row].length > 0)) ∧
    apt_try_variants exC8Frame ["Tampa, FL"] "t" =
      ([] ++ ["✓ Found " ++ natStr ([exC8Row].length) ++ " rows for " ++ "Tampa, FL"],
       [[exC8Row]]) :=
  ⟨⟨by decide, by decide⟩,
   c8_geographic_filter_first_variant.2.2.2.2.1 exC8Frame "t" "Tampa, FL" [] []
     [exC8Row] (by decide) (by decide)⟩

/-- C9 counterexample: a zillow run whose page offers two CSVs resolving to
the same month writes the single silver partition 2021-01 twice and emits
TWO summary lines for that one landed partition — "exactly one line per
successfully landed silver partition" fails. -/
theorem c9_summary_line_counterexample :
    silverMonthsOf (zoriMain exC9ZoriEnv).1 = ["2021-01", "2021-01"] ∧
    (silverMonthsOf (zoriMain exC9ZoriEnv).1).eraseDups = ["2021-01"] ∧
    stdoutOf (zoriMain exC9ZoriEnv).1 = [exC9Line1, exC9Line2] ∧
    MatchesSummaryShape "zillow_zori" exC9Line1 ∧
    MatchesSummaryShape "zillow_zori" exC9Line2 := by
  refine ⟨rfl, rfl, rfl,
    ⟨"2021-01", 1, "data/silver/zillow_zori/date=2021-01/zori_tampa.parquet",
      by decide, by decide⟩,
    ⟨"2021-01", 0, "data/silver/zillow_zori/date=2021-01/zori_tampa.parquet",
      by decide, by decide⟩⟩

/-- C9 (amended): every zillow run's effect trace decomposes into a prefix
with no silver write and no summary-shaped standard-output line, followed by
exactly one verbatim summary line `zillow_zori: latest=<YYYY-MM> rows=<n>
saved=<path>` immediately after each silver write (one line per WRITE — a
partition written twice gets two lines, see the counterexample); the FRED
run behaves likewise on the concrete three-observation environment, its
only summary-shaped line accompanying its single silver write. -/
theorem c9_summary_line_amended :
    (∀ env : ZoriEnv, monthOk env.monthArg = true →
      ∃ (pre : List Effect) (data : List (String × Nat)),
        (zoriMain env).1 = pre ++ data.flatMap (fun md =>
          [Effect.writeSilver md.1 (zoriSilverPath md.1) md.2,
           Effect.stdout (mkSummary "zillow_zori" md.1 md.2 (zoriSilverPath md.1))]) ∧
        (∀ e ∈ pre, e.isSilverWrite = false) ∧
        (∀ l, Effect.stdout l ∈ pre → ¬ MatchesSummaryShape "zillow_zori" l) ∧
        (∀ md ∈ data, isYYYYMM md.1 = true ∧
          MatchesSummaryShape "zillow_zori"
            (mkSummary "zillow_zori" md.1 md.2 (zoriSilverPath md.1)))) ∧
    (stdoutOf (fredMain exC10FredEnv).1 =
      ["Fetching FRED data for series: CUUR0000SEHA",
       "Received 3 observations from FRED",
       "Latest observation date: 2025-09, value: 431.2",
       "Saved bronze JSON: data/bronze/fred/date=2025-09/CUUR0000SEHA.json",
       "fred: latest=2025-09 rows=3 saved=data/silver/fred/date=2025-09/fred_tampa_rent.parquet"] ∧
     silverWritesOf (fredMain exC10FredEnv).1 =
      [.writeSilver "2025-09" "data/silver/fred/date=2025-09/fred_tampa_rent.parquet" 3] ∧
     MatchesSummaryShape "fred"
       "fred: latest=2025-09 rows=3 saved=data/silver/fred/date=2025-09/fred_tampa_rent.parquet" ∧
     (∀ l ∈ ["Fetching FRED data for series: CUUR0000SEHA",
       "Received 3 observations from FRED",
       "Latest observation date: 2025-09, value: 431.2",
       "Saved bronze JSON: data/bronze/fred/date=2025-09/CUUR0000SEHA.json"],
       ¬ MatchesSummaryShape "fred" l)) := by
  constructor
  · intro env hmo
    simp only [zoriMain]
    cases hL : discover_zori_csv_links env.anchors with
    | nil =>
      refine ⟨[.fetchPage zoriBASE_URL], [], by simp, ?_, ?_, ?_⟩
      · intro e he
        rcases List.mem_singleton.mp he with rfl
        rfl
      · intro l hl
        rcases List.mem_singleton.mp hl with h
        cases h
      · intro md h
        cases h
    | cons a t =>
      simp only [List.isEmpty_cons, Bool.false_eq_true, if_false]
      cases hF : (zoriProcessLinks env (a :: t)).2 with
      | nil =>
        simp only [List.isEmpty_nil, if_true]
        refine ⟨Effect.fetchPage zoriBASE_URL :: (zoriProcessLinks env (a :: t)).1 ++
          [Effect.stdout "No new ZORI data to ingest."], [], by simp, ?_, ?_, ?_⟩
        · intro e he
          rcases List.mem_cons.mp he with rfl | he2
          · rfl
          · rcases List.mem_append.mp he2 with h1 | h2
            · exact (zoriProcessLinks_effects env _ e h1).1
            · rcases List.mem_singleton.mp h2 with rfl
              rfl
        · intro l hl
          rcases List.mem_cons.mp hl with heq | hl2
          · exact Effect.noConfusion heq
          · rcases List.mem_append.mp hl2 with h1 | h2
            · exact absurd rfl (((zoriProcessLinks_effects env _ _ h1).2) l)
            · have heq2 := List.mem_singleton.mp h2
              injection heq2 with h3
              subst h3
              exact not_shape_of_no_sep (by decide)
        · intro md h
          cases h
      | cons f fs =>
        simp only [List.isEmpty_cons, Bool.false_eq_true, if_false]
        refine ⟨Effect.fetchPage zoriBASE_URL :: (zoriProcessLinks env (a :: t)).1,
          (f :: fs).map (fun x => (x.1, x.2.length)), ?_, ?_, ?_, ?_⟩
        · rw [zoriEmit_eq]
        · intro e he
          rcases List.mem_cons.mp he with rfl | he2
          · rfl
          · exact (zoriProcessLinks_effects env _ e he2).1
        · intro l hl
          rcases List.mem_cons.mp hl with heq | hl2
          · exact Effect.noConfusion heq
          · exact absurd rfl (((zoriProcessLinks_effects env _ _ hl2).2) l)
        · intro md hmd
          rcases List.mem_map.mp hmd with ⟨x, hx, rfl⟩
          have hwf : isYYYYMM x.1 = true :=
            zoriFrames_months env hmo (a :: t) x (by rw [hF]; exact hx)
          exact ⟨hwf, ⟨x.1, x.2.length, zoriSilverPath x.1, hwf, rfl⟩⟩
  · refine ⟨rfl, rfl,
      ⟨"2025-09", 3, "data/silver/fred/date=2025-09/fred_tampa_rent.parquet",
        by decide, by decide⟩, ?_⟩
    intro l hl
    fin_cases hl <;> exact not_shape_of_no_sep (by decide)

/-- C9 witness: the amended decomposition applied to the concrete
two-link zillow environment. -/
theorem c9_summary_line_witness :
    monthOk exC9ZoriEnv.monthArg = true ∧
    (∃ (pre : List Effect) (data : List (String × Nat)),
      (zoriMain exC9ZoriEnv).1 = pre ++ data.flatMap (fun md =>
        [Effect.writeSilver md.1 (zoriSilverPath md.1) md.2,
         Effect.stdout (mkSummary "zillow_zori" md.1 md.2 (zoriSilverPath md.1))]) ∧
      (∀ e ∈ pre, e.isSilverWrite = false) ∧
      (∀ l, Effect.stdout l ∈ pre → ¬ MatchesSummaryShape "zillow_zori" l) ∧
      (∀ md ∈ data, isYYYYMM md.1 = true ∧
        MatchesSummaryShape "zillow_zori"
          (mkSummary "zillow_zori" md.1 md.2 (zoriSilverPath md.1)))) :=
  ⟨rfl, c9_summary_line_amended.1 exC9ZoriEnv rfl⟩

/-- C10: a successful FRED run writes exactly one silver partition, keyed by
the month of the latest observation; the partition holds one tidy row per
fetched observation of the whole window, the row periods are exactly the
months of all observations, and every observation is no later than the one
that keys the partition — so the rows span many months, not only the
partition month. -/
theorem c10_fred_partition_spans_window :
    ∀ env : FredEnv,
      (match env.apiKey with | some k => !k.isEmpty | none => false) = true →
      env.observations ≠ [] →
      (env.observations.all fun o => (parseYMD? o.date).isSome) = true →
      shouldSkip env.existing (fredLatestPeriod env.observations) env.force = false →
      silverWritesOf (fredMain env).1 =
        [.writeSilver (fredLatestPeriod env.observations)
          (fredSilverPath (fredLatestPeriod env.observations))
          (fredTidy env.observations env.now).length] ∧
      (fredTidy env.observations env.now).length = env.observations.length ∧
      (∀ o ∈ env.observations, ∃ r ∈ fredTidy env.observations env.now,
        r.period = (match parseYMD? o.date with
          | some d => fmtYM d.1 d.2.1
          | none => "")) ∧
      (∀ o ∈ env.observations,
        obsKey o ≤ obsKey ((fredSorted env.observations).getLastD ⟨"", ""⟩)) := by
  intro env hk hobs hparse hskip
  refine ⟨?_, ?_, ?_, ?_⟩
  · simp only [fredMain]
    split
    · rename_i hg
      exfalso
      cases ha : env.apiKey with
      | none => rw [ha] at hk; simp at hk
      | some k =>
        rw [ha] at hk hg
        simp at hk hg
        rw [hg] at hk
        exact Bool.noConfusion hk
    · split
      · rename_i hg
        exact absurd (List.isEmpty_iff.mp hg) hobs
      · split
        · rename_i hg
          rw [hparse] at hg
          simp at hg
        · split
          · rename_i hg
            exact absurd hg (by simp [hskip])
          · simp
  · rw [fredTidy, List.length_map]
    exact (fredSorted_perm env.observations).length_eq
  · intro o ho
    simp only [fredTidy]
    exact ⟨_, List.mem_map_of_mem _
      ((fredSorted_perm env.observations).mem_iff.mpr ho), rfl⟩
  · intro o ho
    exact sorted_key_le_getLastD _ (fredSorted_sorted env.observations) o
      ((fredSorted_perm env.observations).mem_iff.mpr ho) ⟨"", ""⟩

/-- C10 witness: the partition-contents property on a concrete run with
three observations across 2025-07..2025-09. -/
theorem c10_fred_partition_spans_window_witness :
    ((match exC10FredEnv.apiKey with | some k => !k.isEmpty | none => false) = true ∧
     exC10FredEnv.observations ≠ [] ∧
     (exC10FredEnv.observations.all fun o => (parseYMD? o.date).isSome) = true ∧
     shouldSkip exC10FredEnv.existing
       (fredLatestPeriod exC10FredEnv.observations) exC10FredEnv.force = false) ∧
    (fredTidy exC10FredEnv.observations exC10FredEnv.now).length =
      exC10FredEnv.observations.length ∧
    fredLatestPeriod exC10FredEnv.observations = "2025-09" ∧
    (fredTidy exC10FredEnv.observations exC10FredEnv.now).map
      (fun r => r.period) = ["2025-07", "2025-08", "2025-09"] :=
  ⟨⟨rfl, by decide, rfl, rfl⟩,
   (c10_fred_partition_spans_window exC10FredEnv rfl (by decide) rfl rfl).2.1,
   rfl, rfl⟩

end RentSignals
